import Mathlib

/-!
Verification of the frame-streaming engine of `pymoku/_frame_instrument.py`
(with the `BodeData.process_complete` hook of `pymoku/_bodeanalyser.py`).

The embedding follows the source:
  * `FrameQueue` (lines 21-62): a `Queue` whose `_init` builds a
    `deque(maxlen=maxsize)`, so an insertion at capacity evicts the oldest
    entry instead of raising `Full`.
  * `InstrumentData.add_packet` (lines 93-131): header decode via
    `struct.unpack`, per-channel merge, completion and the
    `process_complete` veto.
  * `FrameBasedInstrument.get_realtime_data` (lines 283-299) and
    `FrameBasedInstrument.get_data` (lines 193-250): the acquisition layer.
Bytes are modelled as `Nat`, byte buffers as `List Nat`; exceptions are
modelled with `Except`; the wall clock observed by `time.time()` is
modelled by the time stamp attached to each frame arrival.
-/

/-! ## FrameQueue (src/pymoku/_frame_instrument.py lines 21-62) -/

/-- The state of a `FrameQueue`: `_init` stores the items in a
`deque(maxlen=maxsize)`; the front of the list is the oldest item. -/
structure FrameQueue (α : Type) where
  maxsize : Nat
  queue : List α
  deriving DecidableEq, Repr

/-- `FrameQueue(maxsize)` starts with an empty bounded deque (`_init`). -/
def FrameQueue.empty (α : Type) (maxsize : Nat) : FrameQueue α :=
  { maxsize := maxsize, queue := [] }

/-- `FrameQueue.put` in the producer's `put_nowait` form (`block=False`):
the override never raises `Full`; it appends via `self._put(item)` and the
`maxlen`-bounded deque discards the oldest entries beyond capacity. -/
def FrameQueue.put (q : FrameQueue α) (item : α) : FrameQueue α :=
  let q' := q.queue ++ [item]
  { q with queue := q'.drop (q'.length - q.maxsize) }

/-- A whole sequence of producer-side puts, oldest first. -/
def FrameQueue.putMany (q : FrameQueue α) (items : List α) : FrameQueue α :=
  items.foldl FrameQueue.put q

/-- `FrameQueue.get` pops the oldest retained item (front of the deque). -/
def FrameQueue.popFront (q : FrameQueue α) : Option α × FrameQueue α :=
  match q.queue with
  | [] => (none, q)
  | x :: rest => (some x, { q with queue := rest })

/-! ## Packet decoding (`InstrumentData.add_packet`, lines 93-110) -/

/-- Fixed header length of a realtime frame packet. -/
def hdr_len : Nat := 15

/-- Little-endian unsigned read of `n` bytes starting at offset `off`
(missing bytes read as 0; the decoder's guard keeps reads in range). -/
def readLE (p : List Nat) : Nat → Nat → Nat
  | _, 0 => 0
  | off, n + 1 => p.getD off 0 + 256 * readLE p (off + 1) n

/-- The tuple produced by `struct.unpack('<BHBBBBBIBH', packet[:15])`:
ten little-endian fields at byte offsets 0,1,3,4,5,6,7,8,12,13 with sizes
1,2,1,1,1,1,1,4,1,2. -/
def unpackHeader (p : List Nat) : List Nat :=
  [readLE p 0 1, readLE p 1 2, readLE p 3 1, readLE p 4 1, readLE p 5 1,
   readLE p 6 1, readLE p 7 1, readLE p 8 4, readLE p 12 1, readLE p 13 2]

/-- The structured record extracted from an accepted packet by
`add_packet` lines 100-109 and 121/124: header fields plus the payload
slice `packet[hdr_len:-8]`. -/
structure Packet where
  frameid : Nat
  instrid : Nat
  chan : Nat
  stateid : Nat
  trigstate : Nat
  flags : Nat
  waveformid : Nat
  sourceSerial : Nat
  payload : List Nat
  deriving DecidableEq, Repr

/-- The packet codec inside `add_packet`: a buffer of length `<= hdr_len`
is invalid (lines 95-98, log and drop); otherwise the header is unpacked
field by field (lines 100-109) and the payload is `packet[hdr_len:-8]`. -/
def decodePacket (packet : List Nat) : Option Packet :=
  if packet.length ≤ hdr_len then none
  else
    let data := unpackHeader packet
    some
      { frameid := data.getD 1 0
        instrid := data.getD 2 0
        chan := (data.getD 3 0 >>> 4) &&& 15
        stateid := data.getD 4 0
        trigstate := data.getD 5 0
        flags := data.getD 6 0
        waveformid := data.getD 7 0
        sourceSerial := data.getD 8 0
        payload := (packet.take (packet.length - 8)).drop hdr_len }

/-- A synthetic packet: 15-byte header carrying the given frame id,
channel index (in bits 4-7 of the byte at offset 4) and state id,
then a 4-byte payload `[1, 2, 3, 4]` and the 8-byte footer. -/
def testPacket (fid chan state : Nat) : List Nat :=
  [90, fid % 256, fid / 256, 1, chan <<< 4, state, 0, 0, 0, 0, 0, 0, 7, 0, 0]
    ++ [1, 2, 3, 4] ++ List.replicate 8 0

/-! ## InstrumentData (src/pymoku/_frame_instrument.py lines 64-135) -/

/-- The mutable state of an `InstrumentData` frame accumulator, with the
initial values of `__init__` (lines 71-91) as field defaults.
`chs_valid` is the pair `(self._chs_valid[0], self._chs_valid[1])`. -/
structure InstrData where
  complete : Bool := false
  chs_valid : Bool × Bool := (false, false)
  raw1 : List Nat := []
  raw2 : List Nat := []
  stateid : Option Nat := none
  trigstate : Option Nat := none
  frameid : Nat := 0
  waveformid : Nat := 0
  flags : Option Nat := none
  sourceSerial : Option Nat := none
  deriving DecidableEq, Repr

/-- A freshly constructed `InstrumentData` (its `__init__`). -/
def initInstrData : InstrData := {}

/-- The merge step of `add_packet` on a decoded packet (lines 105-126):
store the header metadata, reset the channel-valid flags and adopt the new
frame id when the frame id changed, store the payload into the channel
slot selected by `chan == 0`, and recompute `_complete = all(_chs_valid)`. -/
def merge_pkt (st : InstrData) (pkt : Packet) : InstrData :=
  let st1 : InstrData :=
    { st with stateid := some pkt.stateid, trigstate := some pkt.trigstate,
              flags := some pkt.flags, waveformid := pkt.waveformid,
              sourceSerial := some pkt.sourceSerial }
  let st2 : InstrData :=
    if st1.frameid ≠ pkt.frameid then
      { st1 with frameid := pkt.frameid, chs_valid := (false, false) }
    else st1
  let st3 : InstrData :=
    if pkt.chan = 0 then
      { st2 with chs_valid := (true, st2.chs_valid.2), raw1 := pkt.payload }
    else
      { st2 with chs_valid := (st2.chs_valid.1, true), raw2 := pkt.payload }
  { st3 with complete := st3.chs_valid.1 && st3.chs_valid.2 }

/-- `InstrumentData.add_packet` (lines 93-131), with the instrument's
`process_complete` override passed in as `hook`. A buffer of length
`<= hdr_len` is logged and dropped with the state unchanged; otherwise the
packet is merged, and if the frame became complete but the hook returns a
negative result, `_complete` is forced back to `False` and both
channel-valid flags are cleared (lines 128-131). -/
def add_packet (hook : InstrData → Bool) (st : InstrData) (packet : List Nat) :
    InstrData :=
  match decodePacket packet with
  | none => st
  | some pkt =>
      let m := merge_pkt st pkt
      if m.complete && !(hook m) then
        { m with complete := false, chs_valid := (false, false) }
      else m

/-- `InstrumentData.process_complete` (lines 133-135): the base class hook
always returns `True`. -/
def process_complete_base : InstrData → Bool := fun _ => true

/-- The completeness veto of `BodeData.process_complete`
(src/pymoku/_bodeanalyser.py lines 94-100): when no calibration scales
have been saved for the frame's state id, the hook returns a falsy value
(`return` with no argument) and the frame must not be enqueued.
`scaleStates` is the set of state ids present in `self.scales`; the
sample-scaling body that runs when calibration is available (lines
102-129) is not needed by the claims and is represented by its successful
outcome. -/
def bodeVetoHook (scaleStates : List Nat) (st : InstrData) : Bool :=
  match st.stateid with
  | none => false
  | some s => scaleStates.contains s

/-! ## get_realtime_data (src/pymoku/_frame_instrument.py lines 283-299) -/

/-- The one exception `get_realtime_data` can raise. -/
inductive RTError where
  | frameTimeout
  deriving DecidableEq, Repr

/-- `FrameBasedInstrument.get_realtime_data` (lines 283-299).
`arrivals` models the successive results of `self._queue.get`: each
element pairs the value of `time.time()` observed after the pop with the
popped frame; exhausting the list models `queue.get` raising `Empty` after
the (finite) per-pop timeout. `endtime` is `time.time() + timeout` from
line 285. While `self._running` holds, frames are popped until one
satisfies `not wait or frame._trigstate == self._stateid`; a pop past
`endtime` raises `FrameTimeout`, as does `Empty`. With the run flag clear
the loop is never entered and the function returns `None`. -/
def get_realtime_data (running wait : Bool) (stateid endtime : Nat) :
    List (Nat × InstrData) → Except RTError (Option InstrData)
  | [] => if running then .error .frameTimeout else .ok none
  | (t, frame) :: rest =>
      if running then
        if wait = false ∨ frame.trigstate = some stateid then .ok (some frame)
        else if endtime < t then .error .frameTimeout
        else get_realtime_data running wait stateid endtime rest
      else .ok none

/-! ## get_data (src/pymoku/_frame_instrument.py lines 173-250) -/

/-- Network operations `get_data` can perform, in source order. -/
inductive NetAction where
  | streamStop
  | realtimeFetch
  | setPause (paused : Bool)
  | commit
  | streamStart
  | streamReceive
  deriving DecidableEq, Repr

/-- The exceptions `get_data` can raise. -/
inductive GDError where
  | notDeployed
  | uncommittedSettings
  | bufferTimeout
  | streamError
  | noFrameClass
  deriving DecidableEq, Repr

deriving instance DecidableEq for Except

/-- What a call to `get_data` did: the network operations it performed in
order, the device's pause state when the call ended, and its result. -/
structure GetDataOutcome where
  actions : List NetAction
  paused : Bool
  result : Except GDError Unit
  deriving DecidableEq, Repr

/-- `FrameBasedInstrument.get_data` (lines 193-250) as a function of the
branch conditions the source reads: `deployed` is `self._moku is not None`
(line 193), `uncommitted` is `self.check_uncommitted_state()` (line 195),
`rtOk` is whether the seed `get_realtime_data` call returns a frame rather
than raising `FrameTimeout` (lines 204-206), `wasPaused` is
`self.get_pause()` (line 209), `downloadOk` is whether the
`_stream_receive_samples` loop ends with `NoDataException` (normal
exhaustion, lines 220-224) rather than raising a transport error, and
`hasFrameClass` is `getattr(self, '_frame_class', None)` (line 239).
An exception raised inside the receive loop propagates immediately: the
stream is not stopped and the pause state is not restored. -/
def get_data (deployed uncommitted autocommit rtOk wasPaused downloadOk
    hasFrameClass : Bool) : GetDataOutcome :=
  if ¬deployed then ⟨[], wasPaused, .error .notDeployed⟩
  else if uncommitted then ⟨[], wasPaused, .error .uncommittedSettings⟩
  else
    let a1 : List NetAction := [.streamStop, .realtimeFetch]
    if ¬rtOk then ⟨a1, wasPaused, .error .bufferTimeout⟩
    else
      let pauseActs : List NetAction :=
        if ¬wasPaused then
          .setPause true :: (if ¬autocommit then [.commit] else [])
        else []
      let a2 := a1 ++ pauseActs ++ [.streamStart, .streamReceive]
      if ¬downloadOk then ⟨a2, true, .error .streamError⟩
      else
        let resumeActs : List NetAction :=
          if ¬wasPaused then
            .setPause false :: (if ¬autocommit then [.commit] else [])
          else []
        let a3 := a2 ++ [.streamStop] ++ resumeActs
        if ¬hasFrameClass then ⟨a3, wasPaused, .error .noFrameClass⟩
        else ⟨a3, wasPaused, .ok ()⟩

/-! ## Helper lemmas -/

/-- Dropping from the front of a prefix commutes with a later drop. -/
theorem drop_append_drop (a xs : List α) (k j : Nat) (h : k ≤ a.length) :
    (a.drop k ++ xs).drop j = (a ++ xs).drop (k + j) := by
  rw [← List.drop_append_of_le_length h, List.drop_drop]

/-- Running any sequence of puts keeps exactly the newest `maxsize` items:
the deque after `putMany` is the input sequence with the overflow dropped
from the front. -/
theorem putMany_queue (xs : List α) :
    ∀ (q : FrameQueue α), q.queue.length ≤ q.maxsize →
      (q.putMany xs).queue =
        (q.queue ++ xs).drop (q.queue.length + xs.length - q.maxsize) := by
  induction xs with
  | nil =>
    intro q h
    simp only [FrameQueue.putMany, List.foldl_nil, List.append_nil,
      List.length_nil, Nat.add_zero, Nat.sub_eq_zero_of_le h, List.drop_zero]
  | cons x xs ih =>
    intro q h
    have hq : q.putMany (x :: xs) = (q.put x).putMany xs := rfl
    have hqueue : (q.put x).queue =
        (q.queue ++ [x]).drop (q.queue.length + 1 - q.maxsize) := by
      simp [FrameQueue.put]
    have hmax : (q.put x).maxsize = q.maxsize := rfl
    have hlen : (q.put x).queue.length =
        q.queue.length + 1 - (q.queue.length + 1 - q.maxsize) := by
      rw [hqueue, List.length_drop]
      simp
    have hle : (q.put x).queue.length ≤ (q.put x).maxsize := by
      rw [hlen, hmax]; omega
    rw [hq, ih _ hle, hmax, hlen, hqueue,
      drop_append_drop _ _ _ _ (by simp), List.append_assoc,
      List.singleton_append]
    congr 1
    simp only [List.length_cons]
    omega

/-! ## Claim theorems -/

/-- C3: `FrameQueue.put` never raises a full error — it is total, and for
every capacity `N` and every sequence of puts the queue retains exactly
the newest `N` items in FIFO order (the oldest are evicted); a put issued
when `N` items are retained evicts the oldest retained item and then
inserts the new one; with capacity 1, putting F1 then F2 leaves exactly F2
retrievable, and with capacity 3, putting F1, F2, F3, F4 leaves F2, F3, F4
in that order. -/
theorem C3_frameQueue_drop_oldest :
    (∀ (N : Nat) (xs : List Nat),
        ((FrameQueue.empty Nat N).putMany xs).queue = xs.drop (xs.length - N))
    ∧ (∀ (q : FrameQueue Nat) (x : Nat), 1 ≤ q.maxsize →
        q.queue.length = q.maxsize → (q.put x).queue = q.queue.tail ++ [x])
    ∧ ((FrameQueue.empty Nat 1).putMany [1, 2]).queue = [2]
    ∧ ((FrameQueue.empty Nat 3).putMany [1, 2, 3, 4]).queue = [2, 3, 4] := by
  refine ⟨?_, ?_, by decide, by decide⟩
  · intro N xs
    have h := putMany_queue xs (FrameQueue.empty Nat N) (by simp [FrameQueue.empty])
    simpa [FrameQueue.empty] using h
  · intro q x h1 h2
    have hq : (q.put x).queue =
        (q.queue ++ [x]).drop (q.queue.length + 1 - q.maxsize) := by
      simp [FrameQueue.put]
    rw [hq, h2, Nat.add_sub_cancel_left,
      List.drop_append_of_le_length (by omega), List.drop_one]

/-- Witness for C3 at a concrete queue: capacity 1 holding `[5]`; a put of
`7` evicts `5` and retains `7`. -/
theorem C3_frameQueue_drop_oldest_witness :
    (FrameQueue.put { maxsize := 1, queue := [5] } 7).queue = [7] :=
  C3_frameQueue_drop_oldest.2.1 { maxsize := 1, queue := [5] } 7
    (by decide) (by decide)

/-- C4 counterexample: a buffer of exactly the 15-byte header length is at
least the header length, yet `add_packet` drops it unchanged and no
structured record is produced — the guard on line 95 is
`len(packet) <= hdr_len`, not `<`. -/
theorem C4_counterexample :
    (List.replicate 15 0).length = hdr_len
    ∧ decodePacket (List.replicate 15 0) = none
    ∧ add_packet process_complete_base initInstrData (List.replicate 15 0)
        = initInstrData := by
  refine ⟨by decide, by decide, by decide⟩

/-- C4 (amended): `add_packet` rejects (drops, leaving the assembler's
state unchanged) exactly those buffers whose length is at most the fixed
15-byte header length — a bare header with no payload is also dropped;
every buffer strictly longer than the header is decoded into a structured
record with every field populated. -/
theorem C4_reject_iff_at_most_header :
    (∀ (hook : InstrData → Bool) (st : InstrData) (p : List Nat),
        p.length ≤ hdr_len → add_packet hook st p = st)
    ∧ (∀ p : List Nat, hdr_len < p.length → (decodePacket p).isSome = true) := by
  constructor
  · intro hook st p h
    simp [add_packet, decodePacket, h]
  · intro p h
    simp [decodePacket, Nat.not_le.mpr h]

/-- Witness for C4: a 3-byte buffer is dropped with the state unchanged,
and a 27-byte test packet decodes to a structured record. -/
theorem C4_reject_iff_at_most_header_witness :
    add_packet process_complete_base initInstrData [1, 2, 3] = initInstrData
    ∧ (decodePacket (testPacket 1 0 0)).isSome = true :=
  ⟨C4_reject_iff_at_most_header.1 process_complete_base initInstrData [1, 2, 3]
      (by decide),
   C4_reject_iff_at_most_header.2 (testPacket 1 0 0) (by decide)⟩

/-- C5: for every accepted packet the decoder extracts the 16-bit frame id
from bytes 1-2 (little-endian), the instrument id from byte 3, the channel
index from bits 4-7 of byte 4, the state id from byte 5, the trigger-state
id from byte 6, the flags from byte 7, the 32-bit waveform id from bytes
8-11, and the payload as `bytes[15 : len-8]`; a synthetic packet carrying
frame id 42, channel 0, state id 3 parses to exactly those values. -/
theorem C5_header_layout :
    (∀ (p : List Nat) (pkt : Packet), decodePacket p = some pkt →
        pkt.frameid = p.getD 1 0 + 256 * p.getD 2 0
        ∧ pkt.instrid = p.getD 3 0
        ∧ pkt.chan = (p.getD 4 0 >>> 4) &&& 15
        ∧ pkt.stateid = p.getD 5 0
        ∧ pkt.trigstate = p.getD 6 0
        ∧ pkt.flags = p.getD 7 0
        ∧ pkt.waveformid = p.getD 8 0 + 256 * p.getD 9 0
            + 65536 * p.getD 10 0 + 16777216 * p.getD 11 0
        ∧ pkt.payload = (p.drop 15).take (p.length - 23))
    ∧ decodePacket (testPacket 42 0 3) =
        some { frameid := 42, instrid := 1, chan := 0, stateid := 3,
               trigstate := 0, flags := 0, waveformid := 0, sourceSerial := 7,
               payload := [1, 2, 3, 4] } := by
  constructor
  · intro p pkt h
    rw [decodePacket] at h
    split at h
    · exact absurd h (by simp)
    · obtain rfl : _ = pkt := Option.some.inj h
      refine ⟨?_, rfl, rfl, rfl, rfl, rfl, ?_, ?_⟩
      · simp [unpackHeader, readLE]
      · simp [unpackHeader, readLE]
        ring
      · show (p.take (p.length - 8)).drop hdr_len = _
        rw [List.drop_take]
        congr 1
  · decide

/-- Witness for C5: the layout equations applied at the synthetic packet
with frame id 42, channel 0, state id 3. -/
theorem C5_header_layout_witness :
    Packet.frameid
        { frameid := 42, instrid := 1, chan := 0, stateid := 3,
          trigstate := 0, flags := 0, waveformid := 0, sourceSerial := 7,
          payload := [1, 2, 3, 4] }
      = (testPacket 42 0 3).getD 1 0 + 256 * (testPacket 42 0 3).getD 2 0 :=
  (C5_header_layout.1 (testPacket 42 0 3) _ (by decide)).1

/-- C6: merging a packet whose frame id differs from the assembler's
current frame id resets both channel-valid flags, adopts the new frame id,
and stores the incoming payload in its channel slot, so the previous
incomplete frame never becomes complete; a frame is complete exactly when
all enabled channels are valid; merging channel-0 then channel-1 payloads
for frame id 7 yields one complete frame, while merging channel-0 for
frame 7 then channel-0 for frame 8 discards the frame-7 partial state
without completing it. -/
theorem C6_frame_id_mismatch_resets :
    (∀ (st : InstrData) (pkt : Packet), st.frameid ≠ pkt.frameid →
        (merge_pkt st pkt).frameid = pkt.frameid
        ∧ (merge_pkt st pkt).chs_valid =
            (if pkt.chan = 0 then (true, false) else (false, true))
        ∧ (merge_pkt st pkt).complete = false)
    ∧ (∀ (st : InstrData) (pkt : Packet),
        (merge_pkt st pkt).complete =
          ((merge_pkt st pkt).chs_valid.1 && (merge_pkt st pkt).chs_valid.2))
    ∧ (add_packet process_complete_base
        (add_packet process_complete_base initInstrData (testPacket 7 0 3))
        (testPacket 7 1 3)).complete = true
    ∧ (add_packet process_complete_base
        (add_packet process_complete_base initInstrData (testPacket 7 0 3))
        (testPacket 8 0 3)).complete = false
    ∧ (add_packet process_complete_base
        (add_packet process_complete_base initInstrData (testPacket 7 0 3))
        (testPacket 8 0 3)).chs_valid = (true, false) := by
  refine ⟨?_, ?_, by decide, by decide, by decide⟩
  · intro st pkt h
    simp only [merge_pkt, ne_eq, h, not_false_iff, if_true]
    split <;> simp
  · intro st pkt
    simp [merge_pkt]

/-- Witness for C6 at a concrete state and packet: the fresh assembler
(frame id 0) receives a channel-1 packet for frame id 7; the flags are
reset, frame id 7 is adopted, and the frame is not complete. -/
theorem C6_frame_id_mismatch_resets_witness :
    (merge_pkt initInstrData
        { frameid := 7, instrid := 1, chan := 1, stateid := 3, trigstate := 0,
          flags := 0, waveformid := 0, sourceSerial := 7,
          payload := [1, 2, 3, 4] }).frameid = 7
    ∧ (merge_pkt initInstrData
        { frameid := 7, instrid := 1, chan := 1, stateid := 3, trigstate := 0,
          flags := 0, waveformid := 0, sourceSerial := 7,
          payload := [1, 2, 3, 4] }).chs_valid = (if (1 : Nat) = 0 then (true, false) else (false, true))
    ∧ (merge_pkt initInstrData
        { frameid := 7, instrid := 1, chan := 1, stateid := 3, trigstate := 0,
          flags := 0, waveformid := 0, sourceSerial := 7,
          payload := [1, 2, 3, 4] }).complete = false :=
  C6_frame_id_mismatch_resets.1 initInstrData
    { frameid := 7, instrid := 1, chan := 1, stateid := 3, trigstate := 0,
      flags := 0, waveformid := 0, sourceSerial := 7, payload := [1, 2, 3, 4] }
    (by decide)

/-- C10: every packet whose 4-bit channel index is nonzero is merged into
channel 2's payload slot and channel-valid flag (only index 0 maps to
channel 1); concretely, packets with channel indices 2 and 15 both land
in channel 2's slot. -/
theorem C10_nonzero_channel_is_ch2 :
    (∀ (st : InstrData) (pkt : Packet), pkt.chan ≠ 0 →
        (merge_pkt st pkt).raw2 = pkt.payload
        ∧ (merge_pkt st pkt).chs_valid.2 = true
        ∧ (merge_pkt st pkt).raw1 = st.raw1)
    ∧ (∀ (st : InstrData) (pkt : Packet), pkt.chan = 0 →
        (merge_pkt st pkt).raw1 = pkt.payload
        ∧ (merge_pkt st pkt).chs_valid.1 = true
        ∧ (merge_pkt st pkt).raw2 = st.raw2)
    ∧ (add_packet process_complete_base initInstrData (testPacket 7 2 3)).raw2
        = [1, 2, 3, 4]
    ∧ (add_packet process_complete_base initInstrData (testPacket 7 2 3)).raw1
        = []
    ∧ (add_packet process_complete_base initInstrData (testPacket 7 15 3)).raw2
        = [1, 2, 3, 4] := by
  refine ⟨?_, ?_, by decide, by decide, by decide⟩
  · intro st pkt h
    simp only [merge_pkt, h, if_false]
    split <;> simp [h]
  · intro st pkt h
    simp only [merge_pkt, h, if_true]
    split <;> simp [h]

/-- Witness for C10: a channel-2 packet for frame id 7 lands in channel
2's slot of the fresh assembler. -/
theorem C10_nonzero_channel_is_ch2_witness :
    (merge_pkt initInstrData
        { frameid := 7, instrid := 1, chan := 2, stateid := 3, trigstate := 0,
          flags := 0, waveformid := 0, sourceSerial := 7,
          payload := [1, 2, 3, 4] }).raw2 = [1, 2, 3, 4]
    ∧ (merge_pkt initInstrData
        { frameid := 7, instrid := 1, chan := 2, stateid := 3, trigstate := 0,
          flags := 0, waveformid := 0, sourceSerial := 7,
          payload := [1, 2, 3, 4] }).chs_valid.2 = true
    ∧ (merge_pkt initInstrData
        { frameid := 7, instrid := 1, chan := 2, stateid := 3, trigstate := 0,
          flags := 0, waveformid := 0, sourceSerial := 7,
          payload := [1, 2, 3, 4] }).raw1 = initInstrData.raw1 :=
  C10_nonzero_channel_is_ch2.1 initInstrData
    { frameid := 7, instrid := 1, chan := 2, stateid := 3, trigstate := 0,
      flags := 0, waveformid := 0, sourceSerial := 7, payload := [1, 2, 3, 4] }
    (by decide)

/-- The assembler state after both channels of frame 7 arrive while the
`BodeData` hook vetoes completion (its `scales` dict is empty, as after
`BodeAnalyser.__init__`). -/
def vetoedFrame7 : InstrData :=
  add_packet (bodeVetoHook [])
    (add_packet (bodeVetoHook []) initInstrData (testPacket 7 0 3))
    (testPacket 7 1 3)

/-- C2 counterexample: after channel 0 and channel 1 of frame 7 have both
contributed and `process_complete` vetoes (no calibration for state 3),
the frame is indeed not complete and the payloads are still stored, but
the record of which channels have contributed IS lost — both channel-valid
flags are reset to false (line 131) — and a later channel-0 packet for the
same frame 7, arriving after calibration for state 3 becomes available,
still does not complete the frame: channel 1 would have to arrive again. -/
theorem C2_counterexample :
    vetoedFrame7.complete = false
    ∧ vetoedFrame7.raw1 = [1, 2, 3, 4]
    ∧ vetoedFrame7.raw2 = [1, 2, 3, 4]
    ∧ vetoedFrame7.chs_valid = (false, false)
    ∧ (add_packet (bodeVetoHook [3]) vetoedFrame7 (testPacket 7 0 3)).complete
        = false := by
  refine ⟨by decide, by decide, by decide, by decide, by decide⟩

/-- C2 (amended): when the post-processing hook returns a negative result
on a frame whose enabled channels have all contributed, the frame is
treated as not-yet-complete (and hence not enqueued); the stored
per-channel payloads are retained, but both channel-valid flags are reset,
so every enabled channel must contribute a payload again before the frame
can complete. -/
theorem C2_veto_resets_channel_flags :
    ∀ (hook : InstrData → Bool) (st : InstrData) (p : List Nat) (pkt : Packet),
      decodePacket p = some pkt →
      (merge_pkt st pkt).complete = true →
      hook (merge_pkt st pkt) = false →
      add_packet hook st p =
        { merge_pkt st pkt with complete := false,
                                chs_valid := (false, false) } := by
  intro hook st p pkt hdec hc hv
  rw [add_packet, hdec]
  simp [hc, hv]

/-- Witness for C2 at the concrete vetoing run: the channel-1 packet of
frame 7 completes the frame, the empty-scales hook vetoes, and the result
is the merged state with `complete` cleared and both flags reset. -/
theorem C2_veto_resets_channel_flags_witness :
    add_packet (bodeVetoHook [])
        (add_packet (bodeVetoHook []) initInstrData (testPacket 7 0 3))
        (testPacket 7 1 3) =
      { merge_pkt
          (add_packet (bodeVetoHook []) initInstrData (testPacket 7 0 3))
          { frameid := 7, instrid := 1, chan := 1, stateid := 3,
            trigstate := 0, flags := 0, waveformid := 0, sourceSerial := 7,
            payload := [1, 2, 3, 4] } with
        complete := false, chs_valid := (false, false) } :=
  C2_veto_resets_channel_flags (bodeVetoHook [])
    (add_packet (bodeVetoHook []) initInstrData (testPacket 7 0 3))
    (testPacket 7 1 3)
    { frameid := 7, instrid := 1, chan := 1, stateid := 3, trigstate := 0,
      flags := 0, waveformid := 0, sourceSerial := 7, payload := [1, 2, 3, 4] }
    (by decide) (by decide) (by decide)

/-- C1: while the instrument is streaming, `get_realtime_data` with
`wait=True` only ever returns a frame whose trigger-state id equals the
instrument's current state id; when only frames with a different
trigger-state arrive it raises `FrameTimeout` (either at a pop observed
past the deadline or when the queue pop times out) rather than returning a
stale frame; and with `wait=False` the first frame popped is returned
regardless of state match. -/
theorem C1_get_realtime_state_gating :
    (∀ (stateid endtime : Nat) (arrivals : List (Nat × InstrData))
        (f : InstrData),
        get_realtime_data true true stateid endtime arrivals = .ok (some f) →
        f.trigstate = some stateid)
    ∧ (∀ (stateid endtime : Nat) (arrivals : List (Nat × InstrData)),
        (∀ a ∈ arrivals, a.2.trigstate ≠ some stateid) →
        get_realtime_data true true stateid endtime arrivals =
          .error .frameTimeout)
    ∧ (∀ (stateid endtime t : Nat) (f : InstrData)
        (rest : List (Nat × InstrData)),
        get_realtime_data true false stateid endtime ((t, f) :: rest) =
          .ok (some f)) := by
  refine ⟨?_, ?_, ?_⟩
  · intro stateid endtime arrivals
    induction arrivals with
    | nil => intro f h; simp [get_realtime_data] at h
    | cons a rest ih =>
      intro f h
      obtain ⟨t, g⟩ := a
      by_cases hg : g.trigstate = some stateid
      · have he : get_realtime_data true true stateid endtime ((t, g) :: rest)
            = .ok (some g) := by simp [get_realtime_data, hg]
        rw [he] at h
        obtain rfl : g = f := by simpa using h
        exact hg
      · by_cases ht : endtime < t
        · have he : get_realtime_data true true stateid endtime
              ((t, g) :: rest) = .error .frameTimeout := by
            simp [get_realtime_data, hg, ht]
          rw [he] at h
          exact absurd h (by simp)
        · have he : get_realtime_data true true stateid endtime
              ((t, g) :: rest)
              = get_realtime_data true true stateid endtime rest := by
            simp [get_realtime_data, hg, ht]
          rw [he] at h
          exact ih f h
  · intro stateid endtime arrivals
    induction arrivals with
    | nil => intro _; simp [get_realtime_data]
    | cons a rest ih =>
      intro hstale
      obtain ⟨t, g⟩ := a
      have hg : g.trigstate ≠ some stateid := hstale (t, g) (by simp)
      by_cases ht : endtime < t
      · simp [get_realtime_data, hg, ht]
      · have he : get_realtime_data true true stateid endtime ((t, g) :: rest)
            = get_realtime_data true true stateid endtime rest := by
          simp [get_realtime_data, hg, ht]
        rw [he]
        exact ih (fun a ha => hstale a (by simp [ha]))
  · intro stateid endtime t f rest
    simp [get_realtime_data]

/-- Witness for C1: with state id 5, a queue delivering one frame stamped
with trigger-state 4 times out, while the same call with `wait=False`
returns that stale frame. -/
theorem C1_get_realtime_state_gating_witness :
    get_realtime_data true true 5 100
        [(10, { initInstrData with trigstate := some 4 })]
      = .error .frameTimeout
    ∧ get_realtime_data true false 5 100
        [(10, { initInstrData with trigstate := some 4 })]
      = .ok (some { initInstrData with trigstate := some 4 }) :=
  ⟨C1_get_realtime_state_gating.2.1 5 100
      [(10, { initInstrData with trigstate := some 4 })] (by decide),
   C1_get_realtime_state_gating.2.2 5 100 10
      { initInstrData with trigstate := some 4 } []⟩

/-- C9: when the run flag is false, `get_realtime_data` never enters the
frame-popping loop and returns `None` — neither a frame nor a timeout
error — whatever the wait flag, deadline and queue contents. -/
theorem C9_not_running_returns_none :
    ∀ (wait : Bool) (stateid endtime : Nat)
      (arrivals : List (Nat × InstrData)),
      get_realtime_data false wait stateid endtime arrivals = .ok none := by
  intro wait stateid endtime arrivals
  cases arrivals with
  | nil => simp [get_realtime_data]
  | cons a rest =>
    obtain ⟨t, g⟩ := a
    simp [get_realtime_data]

/-- C7 counterexample: with the device initially unpaused, a transport
error during the buffered receive loop propagates as `streamError` while
the device is left paused — the prior (unpaused) state is not restored. -/
theorem C7_counterexample :
    (get_data true false true true false false true).result
      = .error .streamError
    ∧ (get_data true false true true false false true).paused = true := by
  refine ⟨by decide, by decide⟩

/-- C7 (amended): if the download attempt fails with a transport error,
the error propagates without restoring the prior pause state — the device
is left paused; the prior pause state is restored only when the receive
loop completes normally. -/
theorem C7_pause_left_on_stream_error :
    ∀ (autocommit wasPaused hasFrameClass : Bool),
      (get_data true false autocommit true wasPaused false hasFrameClass).result
        = .error .streamError
      ∧ (get_data true false autocommit true wasPaused false
          hasFrameClass).paused = true
      ∧ (get_data true false autocommit true wasPaused true
          hasFrameClass).paused = wasPaused := by
  decide

/-- C8: on a deployed instrument, `get_data` raises the
uncommitted-settings error before performing any network operation
whenever staged configuration changes are pending commit, and when no
changes are pending no such error is ever raised. -/
theorem C8_uncommitted_checked_first :
    (∀ (autocommit rtOk wasPaused downloadOk hasFrameClass : Bool),
        (get_data true true autocommit rtOk wasPaused downloadOk
            hasFrameClass).result = .error .uncommittedSettings
        ∧ (get_data true true autocommit rtOk wasPaused downloadOk
            hasFrameClass).actions = [])
    ∧ (∀ (deployed autocommit rtOk wasPaused downloadOk hasFrameClass : Bool),
        (get_data deployed false autocommit rtOk wasPaused downloadOk
            hasFrameClass).result ≠ .error .uncommittedSettings) := by
  constructor <;> decide
